import Mathlib

/-!
Verification of the hybrid admission-control (rate-limiting) subsystem of the
subscription-tracker backend.

The development shallowly embeds the JavaScript source:
* `src/models/rateLimitLog.model.js` — the `RateLimitLog` Mongoose schema with
  its `isWindowExpired` / `resetWindow` methods;
* `src/middlewares/rateLimiter.middleware.js` — `createRateLimiter`, the
  middleware performing identifier resolution, the per-window check-and-count
  against the store, header setting, and 429 rejection;
* `src/controllers/rateLimit.controller.js` — `getUserRateLimit` and
  `getAllRateLimitStats`, the introspection endpoints.

Timestamps are modelled as natural numbers (milliseconds since epoch, the
value of `Date.now()`); an ISO-8601 string in a response is represented by the
timestamp it renders (`new Date(t).toISOString()` is injective in `t`).
Numbers that the JavaScript can drive below zero (`maxRequests - 1`,
`retryAfter`) are modelled as `Int`.  The MongoDB collection is modelled as a
list of documents; `findOne` returns the first document with the given
`identifier` field, `create` appends a fresh document, and `save` writes a
document back by its `_id` (field `rid` below).
-/

/-- One document of the `RateLimitLog` collection (`rateLimitLog.model.js`).
`rid` models the Mongo `_id` that `save` targets. -/
structure RateLimitLog where
  rid : Nat
  identifier : String
  count : Nat
  lastRequest : Nat
  windowStart : Nat
deriving DecidableEq, Repr

/-- The `RateLimitLog` collection. -/
abbrev Store : Type := List RateLimitLog

/-- The options object accepted by `createRateLimiter` (the
`skipSuccessfulRequests` / `skipFailedRequests` flags only affect the
response-phase compensation hook, which no claim concerns, and are omitted). -/
structure Policy where
  windowMs : Nat := 60000
  maxRequests : Nat := 20
  message : String := "Too many requests 🚫"
  type : String := "hybrid"
deriving DecidableEq, Repr

/-- The authenticated-identity context `req.user` attached by the routing
layer; either of the id fields may be absent or empty. -/
structure AuthUser where
  id : Option String := none
  userId : Option String := none
deriving DecidableEq, Repr

/-- The part of an Express request the limiter reads. -/
structure Request where
  user : Option AuthUser := none
  ip : Option String := none
  remoteAddress : Option String := none
deriving DecidableEq, Repr

/-- JavaScript `a || b` on possibly-absent strings: an absent or empty string
is falsy. -/
def jsOrStr (a b : Option String) : Option String :=
  match a with
  | some s => if s = "" then b else some s
  | none => b

/-- JavaScript truthiness of a possibly-absent string. -/
def jsTruthy (a : Option String) : Bool :=
  match a with
  | some s => s ≠ ""
  | none => false

/-- Line 37 of the middleware: `req.ip || req.connection?.remoteAddress ||
'unknown'`. -/
def jsIp (req : Request) : String :=
  (jsOrStr req.ip (jsOrStr req.remoteAddress (some "unknown"))).getD "unknown"

/-- Lines 39–41 / 48–50: collapse both loopback representations to
`"localhost"`. -/
def normalizeIp (s : String) : String :=
  if s = "::1" ∨ s = "127.0.0.1" then "localhost" else s

/-- Lines 29–52 of the middleware: strategy dispatch producing the raw
identifier (before the line 54 usability guard); `none` models the token
branch returning with no usable user id. -/
def resolveRaw (ty : String) (req : Request) : Option String :=
  if ty = "token" ∧ req.user.isSome then
    match req.user with
    | some u => jsOrStr u.id u.userId
    | none => none
  else if ty = "ip" ∨ req.user.isNone then
    some (normalizeIp (jsIp req))
  else
    match req.user with
    | some u => jsOrStr u.id u.userId
    | none => some (normalizeIp (jsIp req))

/-- The resolved identifier after the skip guards (line 33's
`if (!identifier) return next()` and line 54's
`if (!identifier || identifier === 'unknown') return next()`): `none` means
the request is passed through without rate limiting. -/
def resolvedIdentifier (ty : String) (req : Request) : Option String :=
  match resolveRaw ty req with
  | none => none
  | some s => if s = "" ∨ s = "unknown" then none else some s

/-- `RateLimitLog.findOne({ identifier })`: first document whose `identifier`
field matches. -/
def mongoFindOne (store : Store) (ident : String) : Option RateLimitLog :=
  List.find? (fun r => r.identifier = ident) store

/-- A fresh `_id` for `RateLimitLog.create` (no deletions are modelled, so the
collection size is strictly increasing and never reuses an id). -/
def freshId (store : Store) : Nat :=
  List.length store

/-- `document.save()`: write the document back over the stored document with
the same `_id`. -/
def saveDoc (store : Store) (d : RateLimitLog) : Store :=
  List.map (fun x => if x.rid = d.rid then d else x) store

/-- Method `isWindowExpired` of the schema (line 33 of the model):
`Date.now() - this.windowStart.getTime() >= windowMs`. -/
def isWindowExpired (windowStart windowMs now : Nat) : Bool :=
  (windowMs : Int) ≤ (now : Int) - (windowStart : Int)

/-- JavaScript `Math.ceil(a / b)` for integers with `b > 0`: the exact ceiling
of the rational quotient, via floor division. -/
def jsCeilDiv (a b : Int) : Int :=
  -(Int.fdiv (-a) b)

/-- The rate-limit headers set on an admitted request (lines 70–75, 85–90,
118–123): `X-RateLimit-Limit`, `X-RateLimit-Remaining`, `X-RateLimit-Reset`
(as a timestamp, see the module comment) and `X-RateLimit-Type`. -/
structure RateHeaders where
  limit : Nat
  remaining : Int
  reset : Nat
  type : String
deriving DecidableEq, Repr

/-- The JSON body of a 429 rejection (lines 99–108). -/
structure RejectBody where
  success : Bool
  message : String
  error : String
  retryAfter : Int
  limit : Nat
  remaining : Nat
  resetTime : Nat
  type : String
deriving DecidableEq, Repr

/-- What the middleware does with the request: pass it on (`next`), with the
rate-limit headers when they were set, or short-circuit with an HTTP status
and a rejection body. -/
inductive Outcome where
  | next (headers : Option RateHeaders)
  | reject (status : Nat) (body : RejectBody)
deriving DecidableEq, Repr

/-- Which awaited store operations throw, to model a failing store. -/
structure Faults where
  findOneFails : Bool := false
  createFails : Bool := false
  saveFails : Bool := false
deriving DecidableEq, Repr

/-- A store with no faults. -/
def noFaults : Faults := {}

/-- Lines 61–123 of the middleware, after `findOne` returned `snap`: create a
fresh window, roll an expired window over (`resetWindow`), reject over quota,
or increment — each mutation through an awaited call that the faulty store
may fail. `userPresent` is the truthiness of `req.user`, used only for the
reported type. -/
def decideF (fl : Faults) (p : Policy) (userPresent : Bool) (ident : String)
    (now : Nat) (store : Store) (snap : Option RateLimitLog) :
    Except Unit (Outcome × Store) :=
  let tyStr := if userPresent then "token" else "ip"
  match snap with
  | none =>
    if fl.createFails then Except.error () else
      let h : RateHeaders :=
        { limit := p.maxRequests, remaining := (p.maxRequests : Int) - 1,
          reset := now + p.windowMs, type := tyStr }
      let d : RateLimitLog :=
        { rid := freshId store, identifier := ident, count := 1,
          lastRequest := now, windowStart := now }
      Except.ok (Outcome.next (some h), store ++ [d])
  | some r =>
    if isWindowExpired r.windowStart p.windowMs now then
      if fl.saveFails then Except.error () else
        let h : RateHeaders :=
          { limit := p.maxRequests, remaining := (p.maxRequests : Int) - 1,
            reset := now + p.windowMs, type := tyStr }
        let d : RateLimitLog :=
          { r with count := 1, windowStart := now, lastRequest := now }
        Except.ok (Outcome.next (some h), saveDoc store d)
    else if p.maxRequests ≤ r.count then
      let resetT : Nat := r.windowStart + p.windowMs
      let b : RejectBody :=
        { success := false, message := p.message,
          error := "RATE_LIMIT_EXCEEDED",
          retryAfter := jsCeilDiv ((resetT : Int) - (now : Int)) 1000,
          limit := p.maxRequests, remaining := 0,
          resetTime := resetT, type := tyStr }
      Except.ok (Outcome.reject 429 b, store)
    else
      if fl.saveFails then Except.error () else
        let h : RateHeaders :=
          { limit := p.maxRequests,
            remaining := max 0 ((p.maxRequests : Int) - (r.count + 1 : Nat)),
            reset := r.windowStart + p.windowMs, type := tyStr }
        let d : RateLimitLog :=
          { r with count := r.count + 1, lastRequest := now }
        Except.ok (Outcome.next (some h), saveDoc store d)

/-- The body of the middleware's `try` block: resolve the identifier, read
the stored window, decide. -/
def limiterRun (fl : Faults) (p : Policy) (req : Request) (now : Nat)
    (store : Store) : Except Unit (Outcome × Store) :=
  match resolvedIdentifier p.type req with
  | none => Except.ok (Outcome.next none, store)
  | some ident =>
    if fl.findOneFails then Except.error () else
      decideF fl p req.user.isSome ident now store (mongoFindOne store ident)

/-- The full middleware produced by `createRateLimiter`, with the `catch`
block (lines 149–153): on any store error, call `next()` with no headers and
leave the store as it was. -/
def rateLimiterF (fl : Faults) (p : Policy) (req : Request) (now : Nat)
    (store : Store) : Outcome × Store :=
  match limiterRun fl p req now store with
  | Except.ok v => v
  | Except.error _ => (Outcome.next none, store)

/-- The middleware over a healthy store. -/
def rateLimiter (p : Policy) (req : Request) (now : Nat) (store : Store) :
    Outcome × Store :=
  rateLimiterF noFaults p req now store

/-- Whether an outcome lets the request through to the next handler. -/
def passedOn : Outcome → Bool
  | Outcome.next _ => true
  | Outcome.reject _ _ => false

/-- The `X-RateLimit-Remaining` header of an admitted outcome. -/
def headerRemaining : Outcome → Option Int
  | Outcome.next (some h) => some h.remaining
  | _ => none

/-- The `X-RateLimit-Reset` timestamp of an admitted outcome. -/
def headerReset : Outcome → Option Nat
  | Outcome.next (some h) => some h.reset
  | _ => none

/-- The reported limiter type: `X-RateLimit-Type` header on an admitted
request, the `type` field of the 429 body on a rejected one. -/
def reportedType : Outcome → Option String
  | Outcome.next (some h) => some h.type
  | Outcome.next none => none
  | Outcome.reject _ b => some b.type

/-! ### Interleaved execution

Each request body contains two separately-awaited store interactions: the
`findOne` read, and the write implied by the decision (`create` or `save`).
Between a request's read resolving and its write starting, the event loop may
run any part of another request.  A request in flight is therefore a
two-phase machine: it first snapshots the stored window, then commits a
decision computed from that (possibly stale) snapshot. -/

/-- Progress of one in-flight request from a fixed identifier. -/
inductive ReqPhase where
  | started
  | readDone (snap : Option RateLimitLog)
  | done (passed : Bool)
deriving DecidableEq, Repr

/-- Shared store plus the per-request progress. -/
structure ExecState where
  store : Store
  phases : List ReqPhase
deriving DecidableEq, Repr

/-- One scheduler action: let request `i` perform its read, or its commit. -/
inductive SchedStep where
  | doRead (i : Nat)
  | doCommit (i : Nat)
deriving DecidableEq, Repr

/-- Run one scheduler action.  A commit applies `decideF` to the request's own
snapshot but writes into the current shared store — exactly the middleware's
separate `findOne` / `save` calls. -/
def execStep (p : Policy) (ident : String) (now : Nat) (s : ExecState) :
    SchedStep → ExecState
  | SchedStep.doRead i =>
    match s.phases.get? i with
    | some ReqPhase.started =>
      { s with phases := s.phases.set i (ReqPhase.readDone (mongoFindOne s.store ident)) }
    | _ => s
  | SchedStep.doCommit i =>
    match s.phases.get? i with
    | some (ReqPhase.readDone snap) =>
      match decideF noFaults p false ident now s.store snap with
      | Except.ok (out, store') =>
        { store := store', phases := s.phases.set i (ReqPhase.done (passedOn out)) }
      | Except.error _ => s
    | _ => s

/-- Run a whole schedule. -/
def runSched (p : Policy) (ident : String) (now : Nat) (steps : List SchedStep)
    (s : ExecState) : ExecState :=
  List.foldl (execStep p ident now) s steps

/-- The initial state for `n` concurrent requests over an empty store. -/
def initExec (n : Nat) : ExecState :=
  { store := [], phases := List.replicate n ReqPhase.started }

/-- How many of the requests ended up admitted. -/
def admittedCount (s : ExecState) : Nat :=
  List.countP (fun ph => ph = ReqPhase.done true) s.phases

/-- How many of the requests ended up rejected. -/
def rejectedCount (s : ExecState) : Nat :=
  List.countP (fun ph => ph = ReqPhase.done false) s.phases

/-! ### Sequential (non-overlapping) request streams -/

/-- The store after the first `n` requests of a stream, request `i` arriving
at time `t i`, each request completing before the next starts. -/
def seqStore (p : Policy) (req : Request) (t : Nat → Nat) : Nat → Store
  | 0 => []
  | n + 1 => (rateLimiter p req (t n) (seqStore p req t n)).2

/-- The outcome of request `n` of the stream. -/
def seqOutcome (p : Policy) (req : Request) (t : Nat → Nat) (n : Nat) : Outcome :=
  (rateLimiter p req (t n) (seqStore p req t n)).1

/-- Admitted requests among the first `n` of the stream. -/
def seqAdmitted (p : Policy) (req : Request) (t : Nat → Nat) (n : Nat) : Nat :=
  List.countP (fun i => passedOn (seqOutcome p req t i)) (List.range n)

/-! ### Introspection endpoints (`rateLimit.controller.js`) -/

/-- The `data` object of a 200 response from `getUserRateLimit`; the
no-record branch sends no `lastRequest` field. -/
structure UsageData where
  currentUsage : Nat
  limit : Nat
  remaining : Int
  resetTime : Nat
  windowMs : Nat
  lastRequest : Option Nat
deriving DecidableEq, Repr

/-- A response from `getUserRateLimit`: 401 without data, or 200 with data. -/
inductive UsageResp where
  | denied (status : Nat) (success : Bool) (message : String)
  | usage (status : Nat) (success : Bool) (data : UsageData)
deriving DecidableEq, Repr

/-- Lines 3–48 of the controller: `getUserRateLimit` — authenticate, `findOne`
by the caller's user id, report the stored window (or zero usage and a fresh
window when absent) against the fixed general-API policy (limit 60, window
60000ms).  Read-only: the store is returned unchanged. -/
def getUserRateLimit (req : Request) (now : Nat) (store : Store) :
    UsageResp × Store :=
  let userId := req.user.bind AuthUser.id
  if jsTruthy userId = false then
    (UsageResp.denied 401 false "Authentication required", store)
  else
    match mongoFindOne store (userId.getD "") with
    | none =>
      let d : UsageData :=
        { currentUsage := 0, limit := 60, remaining := 60,
          resetTime := now + 60000, windowMs := 60000, lastRequest := none }
      (UsageResp.usage 200 true d, store)
    | some r =>
      let d : UsageData :=
        { currentUsage := r.count, limit := 60,
          remaining := max 0 ((60 : Int) - (r.count : Nat)),
          resetTime := r.windowStart + 60000, windowMs := 60000,
          lastRequest := some r.lastRequest }
      (UsageResp.usage 200 true d, store)

/-- The `$group` summary of `getAllRateLimitStats` (lines 53–62): on an empty
collection the aggregation yields no row and `stats[0] || {…}` falls back to
all zeros; otherwise `$sum: 1`, `$sum: "$count"` and `$avg: "$count"`.  The
average is modelled as the exact rational mean. -/
structure StatsSummary where
  totalUsers : Nat
  totalRequests : Nat
  avgRequestsPerUser : Rat
deriving DecidableEq, Repr

/-- One `recentActivity` entry (`select('identifier count lastRequest')`). -/
structure ActivityEntry where
  identifier : String
  count : Nat
  lastRequest : Nat
deriving DecidableEq, Repr

/-- The 200 response of `getAllRateLimitStats`. -/
structure StatsResp where
  status : Nat
  success : Bool
  summary : StatsSummary
  recentActivity : List ActivityEntry
deriving DecidableEq, Repr

/-- Ordering used by `.sort({ lastRequest: -1 })`: later `lastRequest` first. -/
def byRecent (a b : RateLimitLog) : Prop :=
  b.lastRequest ≤ a.lastRequest

instance : DecidableRel byRecent := by
  intro a b
  unfold byRecent
  infer_instance

instance : IsTotal RateLimitLog byRecent :=
  ⟨fun a b => Nat.le_total b.lastRequest a.lastRequest⟩

instance : IsTrans RateLimitLog byRecent :=
  ⟨fun _ _ _ h1 h2 => Nat.le_trans h2 h1⟩

/-- The aggregation pipeline of lines 53–62. -/
def aggregateSummary (store : Store) : StatsSummary :=
  match store with
  | [] => { totalUsers := 0, totalRequests := 0, avgRequestsPerUser := 0 }
  | _ :: _ =>
    { totalUsers := store.length,
      totalRequests := (store.map RateLimitLog.count).sum,
      avgRequestsPerUser :=
        ((store.map RateLimitLog.count).sum : Rat) / (store.length : Rat) }

/-- Lines 64–67: `find({}).sort({lastRequest: -1}).limit(10).select(…)`. -/
def recentActivity (store : Store) : List ActivityEntry :=
  ((List.insertionSort byRecent store).take 10).map
    (fun r => { identifier := r.identifier, count := r.count,
                lastRequest := r.lastRequest })

/-- Lines 50–80 of the controller: `getAllRateLimitStats`.  Read-only: the
store is returned unchanged. -/
def getAllRateLimitStats (store : Store) : StatsResp × Store :=
  ({ status := 200, success := true, summary := aggregateSummary store,
     recentActivity := recentActivity store }, store)

/-- The HTTP status of a rejected outcome. -/
def rejectStatus : Outcome → Option Nat
  | Outcome.reject s _ => some s
  | _ => none

/-- The `remaining` field of a 429 body. -/
def bodyRemaining : Outcome → Option Nat
  | Outcome.reject _ b => some b.remaining
  | _ => none

/-- The `retryAfter` field of a 429 body. -/
def bodyRetryAfter : Outcome → Option Int
  | Outcome.reject _ b => some b.retryAfter
  | _ => none

/-- Rejected requests among the first `n` of a sequential stream. -/
def seqRejected (p : Policy) (req : Request) (t : Nat → Nat) (n : Nat) : Nat :=
  List.countP (fun i => !passedOn (seqOutcome p req t i)) (List.range n)

/-- The single stored window along a sequential single-identifier stream:
after `n ≥ 1` requests within one window the count is `min n q` and the last
counted request is request `min n q - 1`. -/
def seqRecord (ident : String) (t : Nat → Nat) (q n : Nat) : RateLimitLog :=
  { rid := 0, identifier := ident, count := min n q,
    lastRequest := t (min n q - 1), windowStart := t 0 }

/-- The policy of claim C1: 60 requests per 60000 ms, IP strategy. -/
def policy60 : Policy :=
  { windowMs := 60000, maxRequests := 60, type := "ip" }

/-- A fixed anonymous request from one network address. -/
def reqFixed : Request :=
  { ip := some "203.0.113.7" }

/-! ### Branch lemmas for the middleware -/

/-- Skipped requests (unresolvable identifier) pass through untouched. -/
theorem rateLimiter_skip (p : Policy) (req : Request) (now : Nat) (store : Store)
    (hres : resolvedIdentifier p.type req = none) :
    rateLimiter p req now store = (Outcome.next none, store) := by
  simp [rateLimiter, rateLimiterF, limiterRun, hres]

/-- First request from an identifier: a fresh window is created. -/
theorem rateLimiter_create (p : Policy) (req : Request) (now : Nat) (store : Store)
    (ident : String) (hres : resolvedIdentifier p.type req = some ident)
    (hfind : mongoFindOne store ident = none) :
    rateLimiter p req now store =
      (Outcome.next (some
        { limit := p.maxRequests, remaining := (p.maxRequests : Int) - 1,
          reset := now + p.windowMs,
          type := if req.user.isSome then "token" else "ip" }),
       store ++
        [{ rid := freshId store, identifier := ident, count := 1,
           lastRequest := now, windowStart := now }]) := by
  simp [rateLimiter, rateLimiterF, limiterRun, decideF, noFaults, hres, hfind]

/-- A live window already at quota: 429, store untouched. -/
theorem rateLimiter_reject (p : Policy) (req : Request) (now : Nat) (store : Store)
    (ident : String) (r : RateLimitLog)
    (hres : resolvedIdentifier p.type req = some ident)
    (hfind : mongoFindOne store ident = some r)
    (hlive : isWindowExpired r.windowStart p.windowMs now = false)
    (hover : p.maxRequests ≤ r.count) :
    rateLimiter p req now store =
      (Outcome.reject 429
        { success := false, message := p.message,
          error := "RATE_LIMIT_EXCEEDED",
          retryAfter := jsCeilDiv (((r.windowStart + p.windowMs : Nat) : Int) - (now : Int)) 1000,
          limit := p.maxRequests, remaining := 0,
          resetTime := r.windowStart + p.windowMs,
          type := if req.user.isSome then "token" else "ip" },
       store) := by
  simp [rateLimiter, rateLimiterF, limiterRun, decideF, noFaults, hres, hfind,
    hlive, hover]

/-- An expired window is rolled over (`resetWindow` + `save`). -/
theorem rateLimiter_rollover (p : Policy) (req : Request) (now : Nat) (store : Store)
    (ident : String) (r : RateLimitLog)
    (hres : resolvedIdentifier p.type req = some ident)
    (hfind : mongoFindOne store ident = some r)
    (hexp : isWindowExpired r.windowStart p.windowMs now = true) :
    rateLimiter p req now store =
      (Outcome.next (some
        { limit := p.maxRequests, remaining := (p.maxRequests : Int) - 1,
          reset := now + p.windowMs,
          type := if req.user.isSome then "token" else "ip" }),
       saveDoc store { r with count := 1, windowStart := now, lastRequest := now }) := by
  simp [rateLimiter, rateLimiterF, limiterRun, decideF, noFaults, hres, hfind, hexp]

/-- A live window under quota: increment and admit. -/
theorem rateLimiter_increment (p : Policy) (req : Request) (now : Nat) (store : Store)
    (ident : String) (r : RateLimitLog)
    (hres : resolvedIdentifier p.type req = some ident)
    (hfind : mongoFindOne store ident = some r)
    (hlive : isWindowExpired r.windowStart p.windowMs now = false)
    (hunder : r.count < p.maxRequests) :
    rateLimiter p req now store =
      (Outcome.next (some
        { limit := p.maxRequests,
          remaining := max 0 ((p.maxRequests : Int) - ((r.count + 1 : Nat) : Int)),
          reset := r.windowStart + p.windowMs,
          type := if req.user.isSome then "token" else "ip" }),
       saveDoc store { r with count := r.count + 1, lastRequest := now }) := by
  simp [rateLimiter, rateLimiterF, limiterRun, decideF, noFaults, hres, hfind,
    hlive, Nat.not_le.mpr hunder]

/-- Helper: `decideF` never reads the policy's strategy field. -/
theorem decideF_type_irrelevant (fl : Faults) (p : Policy) (up : Bool)
    (i : String) (n : Nat) (s : Store) (snap : Option RateLimitLog)
    (ta tb : String) :
    decideF fl { p with type := ta } up i n s snap
      = decideF fl { p with type := tb } up i n s snap := by
  simp [decideF]

/-- Helper: `getUserRateLimit` never writes the store. -/
theorem getUserRateLimit_pure (req : Request) (now : Nat) (store : Store) :
    (getUserRateLimit req now store).2 = store := by
  unfold getUserRateLimit
  dsimp only
  split
  · rfl
  · split <;> rfl

/-! ### Claims -/

/-- C6: under IP-based resolution the loopback addresses `::1` and
`127.0.0.1` both resolve to the canonical identifier `"localhost"`, so two
requests arriving from the two representations are billed against one shared
`UsageWindow` whose count combines both (here: a `::1` request then a
`127.0.0.1` request leave a single `"localhost"` record with count 2). -/
theorem loopback_shared_bucket :
    (∀ (u : Option AuthUser) (ra : Option String),
      resolvedIdentifier "ip"
          { user := u, ip := some "::1", remoteAddress := ra } = some "localhost"
      ∧ resolvedIdentifier "ip"
          { user := u, ip := some "127.0.0.1", remoteAddress := ra } = some "localhost")
    ∧ (rateLimiter { windowMs := 60000, maxRequests := 20, message := "m", type := "ip" }
          { ip := some "127.0.0.1" } 1
          (rateLimiter { windowMs := 60000, maxRequests := 20, message := "m", type := "ip" }
            { ip := some "::1" } 0 []).2).2
        = [{ rid := 0, identifier := "localhost", count := 2,
             lastRequest := 1, windowStart := 0 }] := by
  constructor
  · intro u ra
    constructor <;> simp [resolvedIdentifier, resolveRaw, jsIp, jsOrStr, normalizeIp]
  · decide

/-- C4 counterexample: under the Token strategy, a request with no
authenticated-identity context does not resolve to "none" and is not skipped;
the middleware falls back to the network address (lines 35–41 catch the
`!req.user` case first), consults the store, creates a usage window for the
IP, and sets rate-limit headers. -/
theorem token_no_user_not_skipped :
    resolvedIdentifier "token" { user := none, ip := some "198.51.100.9" } = some "198.51.100.9"
    ∧ (rateLimiter { windowMs := 60000, maxRequests := 5, message := "m", type := "token" }
        { user := none, ip := some "198.51.100.9" } 0 []).2
      = [{ rid := 0, identifier := "198.51.100.9", count := 1,
           lastRequest := 0, windowStart := 0 }]
    ∧ headerRemaining (rateLimiter { windowMs := 60000, maxRequests := 5, message := "m", type := "token" }
        { user := none, ip := some "198.51.100.9" } 0 []).1 = some 4 := by
  decide

/-- C4 amended: under the Token strategy, a request with no
authenticated-identity context is handled exactly as under the IP strategy
(silent fall back to the normalized network address); the request is skipped
from limiting only when an authenticated context is present but carries no
usable user id (both id fields absent or empty). -/
theorem token_strategy_fallback (p : Policy) (req : Request) (now : Nat)
    (store : Store) (fl : Faults) :
    (req.user = none →
      rateLimiterF fl { p with type := "token" } req now store
        = rateLimiterF fl { p with type := "ip" } req now store)
    ∧ (∀ u, req.user = some u → jsTruthy (jsOrStr u.id u.userId) = false →
        rateLimiter { p with type := "token" } req now store
          = (Outcome.next none, store)) := by
  constructor
  · intro hnone
    have hres : resolvedIdentifier "token" req = resolvedIdentifier "ip" req := by
      simp [resolvedIdentifier, resolveRaw, hnone]
    simp only [rateLimiterF, limiterRun]
    rw [hres]
    rcases resolvedIdentifier "ip" req with _ | ident
    · rfl
    · dsimp only
      rw [decideF_type_irrelevant fl p req.user.isSome ident now store
        (mongoFindOne store ident) "token" "ip"]
  · intro u hu hfalsy
    apply rateLimiter_skip
    simp only [resolvedIdentifier, resolveRaw, hu]
    rcases hj : jsOrStr u.id u.userId with _ | s
    · simp
    · rw [hj] at hfalsy
      simp [jsTruthy] at hfalsy
      simp [hfalsy]

/-- Witness for the amended C4 theorem at concrete inputs: an unauthenticated
request under a Token policy behaves exactly as under the IP policy, and a
request whose authenticated context has no usable id is passed through with
the store untouched. -/
theorem token_strategy_fallback_witness :
    rateLimiterF noFaults { windowMs := 60000, maxRequests := 5, message := "m", type := "token" }
        { ip := some "8.8.8.8" } 0 []
      = rateLimiterF noFaults { windowMs := 60000, maxRequests := 5, message := "m", type := "ip" }
        { ip := some "8.8.8.8" } 0 []
    ∧ rateLimiter { windowMs := 60000, maxRequests := 5, message := "m", type := "token" }
        { user := some { id := none, userId := none }, ip := some "8.8.8.8" } 0 []
      = (Outcome.next none, []) :=
  ⟨(token_strategy_fallback { windowMs := 60000, maxRequests := 5, message := "m" }
      { ip := some "8.8.8.8" } 0 [] noFaults).1 rfl,
   (token_strategy_fallback { windowMs := 60000, maxRequests := 5, message := "m" }
      { user := some { id := none, userId := none }, ip := some "8.8.8.8" } 0 [] noFaults).2
     { id := none, userId := none } rfl (by decide)⟩

/-- C7: whenever a store operation fails during a request (the middleware's
`try` body throws), the `catch` block admits the request: `next()` is called,
no rate-limit headers are set, no error is surfaced, and the stored state is
left as it was. -/
theorem store_failure_fails_open (fl : Faults) (p : Policy) (req : Request)
    (now : Nat) (store : Store)
    (hfail : ∃ e, limiterRun fl p req now store = Except.error e) :
    rateLimiterF fl p req now store = (Outcome.next none, store)
    ∧ passedOn (rateLimiterF fl p req now store).1 = true := by
  obtain ⟨e, he⟩ := hfail
  refine ⟨?_, ?_⟩ <;> simp [rateLimiterF, he, passedOn]

/-- Witness for C7: with a store whose `findOne` throws, a concrete request
is admitted with no headers and the store is unchanged. -/
theorem store_failure_fails_open_witness :
    (∃ e, limiterRun { findOneFails := true } { type := "ip" }
        { ip := some "9.9.9.9" } 0 [] = Except.error e)
    ∧ rateLimiterF { findOneFails := true } { type := "ip" }
        { ip := some "9.9.9.9" } 0 [] = (Outcome.next none, [])
    ∧ passedOn (rateLimiterF { findOneFails := true } { type := "ip" }
        { ip := some "9.9.9.9" } 0 []).1 = true :=
  ⟨⟨(), by rfl⟩,
   (store_failure_fails_open { findOneFails := true } { type := "ip" }
      { ip := some "9.9.9.9" } 0 [] ⟨(), by rfl⟩).1,
   (store_failure_fails_open { findOneFails := true } { type := "ip" }
      { ip := some "9.9.9.9" } 0 [] ⟨(), by rfl⟩).2⟩

/-- C8: `getUserRateLimit` is idempotent — it never writes the store, so two
calls in immediate succession (same instant, no intervening admission) return
identical responses, including when no `UsageWindow` exists for the caller
(zero usage and a fresh window starting now). -/
theorem getUsage_idempotent (req : Request) (now : Nat) (store : Store) :
    (getUserRateLimit req now store).2 = store
    ∧ getUserRateLimit req now (getUserRateLimit req now store).2
        = getUserRateLimit req now store :=
  ⟨getUserRateLimit_pure req now store, by rw [getUserRateLimit_pure req now store]⟩

/-- C10: the reported limiter type (`X-RateLimit-Type` header on admit, the
`type` field of the 429 body on reject) is `"token"` exactly when the request
carries an authenticated-identity context, independently of the strategy that
produced the identifier; in particular the IP strategy always bills the
normalized network address, even for authenticated callers whose responses
report `"token"`. -/
theorem reported_type_tracks_auth :
    (∀ (p : Policy) (req : Request) (now : Nat) (store : Store) (t : String),
      reportedType (rateLimiter p req now store).1 = some t →
      (t = "token" ↔ req.user.isSome = true))
    ∧ (∀ req : Request, resolveRaw "ip" req = some (normalizeIp (jsIp req))) := by
  constructor
  · intro p req now store t h
    have key : ∀ (b : Bool) (t : String), t = (if b then "token" else "ip") →
        (t = "token" ↔ b = true) := by
      intro b t h
      cases b <;> simp_all
    rcases hres : resolvedIdentifier p.type req with _ | ident
    · rw [rateLimiter_skip p req now store hres] at h
      simp [reportedType] at h
    · rcases hfind : mongoFindOne store ident with _ | r
      · rw [rateLimiter_create p req now store ident hres hfind] at h
        simp [reportedType] at h
        exact key _ _ h.symm
      · rcases hexp : isWindowExpired r.windowStart p.windowMs now
        · rcases Nat.lt_or_ge r.count p.maxRequests with hc | hc
          · rw [rateLimiter_increment p req now store ident r hres hfind hexp hc] at h
            simp [reportedType] at h
            exact key _ _ h.symm
          · rw [rateLimiter_reject p req now store ident r hres hfind hexp hc] at h
            simp [reportedType] at h
            exact key _ _ h.symm
        · rw [rateLimiter_rollover p req now store ident r hres hfind hexp] at h
          simp [reportedType] at h
          exact key _ _ h.symm
  · intro req
    simp [resolveRaw]

/-- Witness for C10: an authenticated caller under the IP strategy is billed
against its network-address bucket while the reported type is "token". -/
theorem reported_type_tracks_auth_witness :
    reportedType (rateLimiter { windowMs := 60000, maxRequests := 5, message := "m", type := "ip" }
        { user := some { id := some "u1" }, ip := some "9.9.9.9" } 0 []).1 = some "token"
    ∧ ("token" = "token" ↔ ({ user := some { id := some "u1" }, ip := some "9.9.9.9" } : Request).user.isSome = true)
    ∧ resolveRaw "ip" { user := some { id := some "u1" }, ip := some "9.9.9.9" } = some "9.9.9.9" :=
  ⟨by decide,
   reported_type_tracks_auth.1 { windowMs := 60000, maxRequests := 5, message := "m", type := "ip" }
     { user := some { id := some "u1" }, ip := some "9.9.9.9" } 0 [] "token" (by decide),
   by decide⟩

/-- C9: the global statistics read returns `recentActivity` as at most 10
entries `{identifier, count, lastRequest}` drawn from the stored windows and
ordered by `lastRequest` descending, together with a summary whose
`totalUsers` is the number of stored windows, `totalRequests` the sum of
their counts and `avgRequestsPerUser` their mean (all zeros for an empty
store), and it mutates nothing. -/
theorem global_stats_shape (store : Store) :
    (getAllRateLimitStats store).2 = store
    ∧ (getAllRateLimitStats store).1.status = 200
    ∧ (getAllRateLimitStats store).1.success = true
    ∧ (getAllRateLimitStats store).1.recentActivity.length ≤ 10
    ∧ List.Pairwise (fun a b => b.lastRequest ≤ a.lastRequest)
        (getAllRateLimitStats store).1.recentActivity
    ∧ (∀ e ∈ (getAllRateLimitStats store).1.recentActivity, ∃ r ∈ store,
        e = { identifier := r.identifier, count := r.count, lastRequest := r.lastRequest })
    ∧ (getAllRateLimitStats store).1.summary.totalUsers = store.length
    ∧ (getAllRateLimitStats store).1.summary.totalRequests
        = (store.map RateLimitLog.count).sum
    ∧ (getAllRateLimitStats store).1.summary.avgRequestsPerUser
        = (if store.length = 0 then 0
           else ((store.map RateLimitLog.count).sum : Rat) / (store.length : Rat))
    ∧ aggregateSummary [] = { totalUsers := 0, totalRequests := 0, avgRequestsPerUser := 0 } := by
  refine ⟨rfl, rfl, rfl, ?_, ?_, ?_, ?_, ?_, ?_, rfl⟩
  · simp [getAllRateLimitStats, recentActivity]
  · have hs : List.Sorted byRecent (List.insertionSort byRecent store) :=
      List.sorted_insertionSort byRecent store
    have ht : List.Pairwise byRecent (List.take 10 (List.insertionSort byRecent store)) :=
      List.Pairwise.sublist (List.take_sublist 10 _) hs
    exact List.Pairwise.map _ (fun a b h => h) ht
  · intro e he
    simp only [getAllRateLimitStats, recentActivity, List.mem_map] at he
    obtain ⟨r, hr, hre⟩ := he
    have h1 : r ∈ List.insertionSort byRecent store := List.take_subset 10 _ hr
    have h2 : r ∈ store := by simpa using h1
    exact ⟨r, h2, hre.symm⟩
  · cases store <;> rfl
  · cases store <;> rfl
  · cases store with
    | nil => rfl
    | cons a l => simp [getAllRateLimitStats, aggregateSummary]

/-- Witness for C9 at a concrete two-record store. -/
theorem global_stats_shape_witness :
    (getAllRateLimitStats [⟨0, "a", 2, 5, 0⟩, ⟨1, "b", 4, 9, 0⟩]).2
        = [⟨0, "a", 2, 5, 0⟩, ⟨1, "b", 4, 9, 0⟩]
    ∧ (getAllRateLimitStats [⟨0, "a", 2, 5, 0⟩, ⟨1, "b", 4, 9, 0⟩]).1.status = 200
    ∧ (getAllRateLimitStats [⟨0, "a", 2, 5, 0⟩, ⟨1, "b", 4, 9, 0⟩]).1.success = true
    ∧ (getAllRateLimitStats [⟨0, "a", 2, 5, 0⟩, ⟨1, "b", 4, 9, 0⟩]).1.recentActivity.length ≤ 10
    ∧ List.Pairwise (fun a b => b.lastRequest ≤ a.lastRequest)
        (getAllRateLimitStats [⟨0, "a", 2, 5, 0⟩, ⟨1, "b", 4, 9, 0⟩]).1.recentActivity
    ∧ (∀ e ∈ (getAllRateLimitStats [⟨0, "a", 2, 5, 0⟩, ⟨1, "b", 4, 9, 0⟩]).1.recentActivity,
        ∃ r ∈ [(⟨0, "a", 2, 5, 0⟩ : RateLimitLog), ⟨1, "b", 4, 9, 0⟩],
        e = { identifier := r.identifier, count := r.count, lastRequest := r.lastRequest })
    ∧ (getAllRateLimitStats [⟨0, "a", 2, 5, 0⟩, ⟨1, "b", 4, 9, 0⟩]).1.summary.totalUsers
        = ([(⟨0, "a", 2, 5, 0⟩ : RateLimitLog), ⟨1, "b", 4, 9, 0⟩] : Store).length
    ∧ (getAllRateLimitStats [⟨0, "a", 2, 5, 0⟩, ⟨1, "b", 4, 9, 0⟩]).1.summary.totalRequests
        = (([(⟨0, "a", 2, 5, 0⟩ : RateLimitLog), ⟨1, "b", 4, 9, 0⟩] : Store).map RateLimitLog.count).sum
    ∧ (getAllRateLimitStats [⟨0, "a", 2, 5, 0⟩, ⟨1, "b", 4, 9, 0⟩]).1.summary.avgRequestsPerUser
        = (if ([(⟨0, "a", 2, 5, 0⟩ : RateLimitLog), ⟨1, "b", 4, 9, 0⟩] : Store).length = 0 then 0
           else ((([(⟨0, "a", 2, 5, 0⟩ : RateLimitLog), ⟨1, "b", 4, 9, 0⟩] : Store).map RateLimitLog.count).sum : Rat)
             / (([(⟨0, "a", 2, 5, 0⟩ : RateLimitLog), ⟨1, "b", 4, 9, 0⟩] : Store).length : Rat))
    ∧ aggregateSummary [] = { totalUsers := 0, totalRequests := 0, avgRequestsPerUser := 0 } :=
  global_stats_shape [⟨0, "a", 2, 5, 0⟩, ⟨1, "b", 4, 9, 0⟩]

/-! ### Arithmetic and store helpers -/

/-- Helper: `jsCeilDiv a 1000` is the least integer `k` with `a ≤ 1000 * k`,
i.e. the mathematical ceiling of `a / 1000`. -/
theorem jsCeilDiv_le_iff (a k : Int) : jsCeilDiv a 1000 ≤ k ↔ a ≤ 1000 * k := by
  unfold jsCeilDiv
  rw [Int.fdiv_eq_ediv _ (by norm_num)]
  omega

/-- Helper: a list splits into the entries satisfying a predicate and those
not satisfying it. -/
theorem length_eq_countP_add (l : List Nat) (f : Nat → Bool) :
    l.length = l.countP f + l.countP (fun a => !f a) := by
  induction l with
  | nil => rfl
  | cons a l ih =>
    by_cases h : f a = true
    · simp [List.countP_cons, h, ih]
      omega
    · simp [List.countP_cons, h, ih]
      omega

/-- Helper: saving a document with the `_id` of the window `findOne` located
(and the same identifier) makes `findOne` return the saved document, provided
document ids are distinct. -/
theorem mongoFindOne_saveDoc (store : Store) (ident : String) (r d : RateLimitLog)
    (hnodup : (store.map RateLimitLog.rid).Nodup)
    (hfind : mongoFindOne store ident = some r)
    (hrid : d.rid = r.rid) (hident : d.identifier = ident) :
    mongoFindOne (saveDoc store d) ident = some d := by
  induction store with
  | nil => simp [mongoFindOne] at hfind
  | cons a l ih =>
    rw [List.map_cons, List.nodup_cons] at hnodup
    by_cases ha : a.identifier = ident
    · have hra : r = a := by
        simp [mongoFindOne, List.find?_cons, ha] at hfind
        exact hfind.symm
      subst hra
      simp [saveDoc, mongoFindOne, List.find?_cons, hrid, hident]
    · have hfl : mongoFindOne l ident = some r := by
        simpa [mongoFindOne, List.find?_cons, ha] using hfind
      have hrl : r ∈ l := List.mem_of_find?_eq_some hfl
      have hne : a.rid ≠ d.rid := by
        rw [hrid]
        intro hcontra
        exact hnodup.1 (hcontra ▸ List.mem_map_of_mem RateLimitLog.rid hrl)
      have := ih hnodup.2 hfl
      simpa [saveDoc, mongoFindOne, List.find?_cons, hne, ha] using this

/-! ### The sequential request stream -/

/-- Helper: along a sequential single-identifier stream within one live
window, the store holds exactly one record, with count `min n quota`. -/
theorem seqStore_closed (p : Policy) (req : Request) (ident : String) (t : Nat → Nat)
    (hres : resolvedIdentifier p.type req = some ident)
    (hQ : 1 ≤ p.maxRequests)
    (ht : ∀ i, t 0 ≤ t i ∧ t i < t 0 + p.windowMs) :
    ∀ n, 1 ≤ n → seqStore p req t n = [seqRecord ident t p.maxRequests n] := by
  intro n
  induction n with
  | zero => omega
  | succ n ih =>
    intro _
    by_cases hn : 1 ≤ n
    · have hstore := ih hn
      show (rateLimiter p req (t n) (seqStore p req t n)).2 = _
      rw [hstore]
      have hfind : mongoFindOne [seqRecord ident t p.maxRequests n] ident
          = some (seqRecord ident t p.maxRequests n) := by
        simp [mongoFindOne, seqRecord]
      have hlive : isWindowExpired (seqRecord ident t p.maxRequests n).windowStart
          p.windowMs (t n) = false := by
        have h1 := (ht n).1
        have h2 := (ht n).2
        simp only [isWindowExpired, seqRecord, decide_eq_false_iff_not, not_le]
        omega
      by_cases hover : p.maxRequests ≤ (seqRecord ident t p.maxRequests n).count
      · rw [rateLimiter_reject p req (t n) _ ident _ hres hfind hlive hover]
        have hmm : min n p.maxRequests = min (n + 1) p.maxRequests := by
          simp [seqRecord] at hover
          omega
        simp [seqRecord, hmm]
      · have hunder : (seqRecord ident t p.maxRequests n).count < p.maxRequests := by
          omega
        rw [rateLimiter_increment p req (t n) _ ident _ hres hfind hlive hunder]
        have hlt : n < p.maxRequests := by
          simp [seqRecord] at hunder
          omega
        have hmn : min n p.maxRequests = n := by omega
        have hmn1 : min (n + 1) p.maxRequests = n + 1 := by omega
        simp [seqRecord, saveDoc, hmn, hmn1]
    · have hn0 : n = 0 := by omega
      subst hn0
      show (rateLimiter p req (t 0) (seqStore p req t 0)).2 = _
      rw [show seqStore p req t 0 = [] from rfl]
      rw [rateLimiter_create p req (t 0) [] ident hres rfl]
      have hmn : min 1 p.maxRequests = 1 := by omega
      simp [freshId, seqRecord, hmn]

/-- Helper: the first request of the stream creates the window and admits
with `remaining = quota - 1` and `resetAt = t 0 + windowMs`. -/
theorem seqOutcome_first (p : Policy) (req : Request) (ident : String) (t : Nat → Nat)
    (hres : resolvedIdentifier p.type req = some ident) :
    seqOutcome p req t 0 = Outcome.next (some
      { limit := p.maxRequests, remaining := (p.maxRequests : Int) - 1,
        reset := t 0 + p.windowMs,
        type := if req.user.isSome then "token" else "ip" }) := by
  unfold seqOutcome
  rw [show seqStore p req t 0 = [] from rfl]
  rw [rateLimiter_create p req (t 0) [] ident hres rfl]

/-- Helper: request `n` with `1 ≤ n < quota` increments and admits with
`remaining = max 0 (quota - (n+1))` and `resetAt = t 0 + windowMs`. -/
theorem seqOutcome_under (p : Policy) (req : Request) (ident : String) (t : Nat → Nat)
    (hres : resolvedIdentifier p.type req = some ident)
    (hQ : 1 ≤ p.maxRequests)
    (ht : ∀ i, t 0 ≤ t i ∧ t i < t 0 + p.windowMs)
    (n : Nat) (h1 : 1 ≤ n) (h2 : n < p.maxRequests) :
    seqOutcome p req t n = Outcome.next (some
      { limit := p.maxRequests,
        remaining := max 0 ((p.maxRequests : Int) - ((n + 1 : Nat) : Int)),
        reset := t 0 + p.windowMs,
        type := if req.user.isSome then "token" else "ip" }) := by
  unfold seqOutcome
  rw [seqStore_closed p req ident t hres hQ ht n h1]
  have hfind : mongoFindOne [seqRecord ident t p.maxRequests n] ident
      = some (seqRecord ident t p.maxRequests n) := by
    simp [mongoFindOne, seqRecord]
  have hlive : isWindowExpired (seqRecord ident t p.maxRequests n).windowStart
      p.windowMs (t n) = false := by
    have ha := (ht n).1
    have hb := (ht n).2
    simp only [isWindowExpired, seqRecord, decide_eq_false_iff_not, not_le]
    omega
  have hunder : (seqRecord ident t p.maxRequests n).count < p.maxRequests := by
    simp [seqRecord]
    omega
  rw [rateLimiter_increment p req (t n) _ ident _ hres hfind hlive hunder]
  have hmn : min n p.maxRequests = n := by omega
  simp [seqRecord, hmn]

/-- Helper: request `n ≥ quota` of the stream is rejected with the 429 body
computed from the stored window. -/
theorem seqOutcome_over (p : Policy) (req : Request) (ident : String) (t : Nat → Nat)
    (hres : resolvedIdentifier p.type req = some ident)
    (hQ : 1 ≤ p.maxRequests)
    (ht : ∀ i, t 0 ≤ t i ∧ t i < t 0 + p.windowMs)
    (n : Nat) (hn : p.maxRequests ≤ n) :
    seqOutcome p req t n = Outcome.reject 429
      { success := false, message := p.message, error := "RATE_LIMIT_EXCEEDED",
        retryAfter := jsCeilDiv (((t 0 + p.windowMs : Nat) : Int) - ((t n : Nat) : Int)) 1000,
        limit := p.maxRequests, remaining := 0, resetTime := t 0 + p.windowMs,
        type := if req.user.isSome then "token" else "ip" } := by
  unfold seqOutcome
  have h1 : 1 ≤ n := by omega
  rw [seqStore_closed p req ident t hres hQ ht n h1]
  have hfind : mongoFindOne [seqRecord ident t p.maxRequests n] ident
      = some (seqRecord ident t p.maxRequests n) := by
    simp [mongoFindOne, seqRecord]
  have hlive : isWindowExpired (seqRecord ident t p.maxRequests n).windowStart
      p.windowMs (t n) = false := by
    have ha := (ht n).1
    have hb := (ht n).2
    simp only [isWindowExpired, seqRecord, decide_eq_false_iff_not, not_le]
    omega
  have hover : p.maxRequests ≤ (seqRecord ident t p.maxRequests n).count := by
    simp [seqRecord]
    omega
  rw [rateLimiter_reject p req (t n) _ ident _ hres hfind hlive hover]
  simp [seqRecord]

/-- Helper: request `n` of the stream is admitted exactly when `n < quota`. -/
theorem seqPassed (p : Policy) (req : Request) (ident : String) (t : Nat → Nat)
    (hres : resolvedIdentifier p.type req = some ident)
    (hQ : 1 ≤ p.maxRequests)
    (ht : ∀ i, t 0 ≤ t i ∧ t i < t 0 + p.windowMs)
    (n : Nat) :
    passedOn (seqOutcome p req t n) = decide (n < p.maxRequests) := by
  rcases Nat.lt_or_ge n p.maxRequests with h | h
  · rcases Nat.eq_zero_or_pos n with h0 | h0
    · subst h0
      rw [seqOutcome_first p req ident t hres]
      simp [passedOn, h]
    · rw [seqOutcome_under p req ident t hres hQ ht n h0 h]
      simp [passedOn, h]
  · rw [seqOutcome_over p req ident t hres hQ ht n h]
    simp [passedOn]
    omega

/-- Helper: among the first `N` requests of the stream exactly `min N quota`
are admitted. -/
theorem seqAdmitted_eq_min (p : Policy) (req : Request) (ident : String)
    (t : Nat → Nat)
    (hres : resolvedIdentifier p.type req = some ident)
    (hQ : 1 ≤ p.maxRequests)
    (ht : ∀ i, t 0 ≤ t i ∧ t i < t 0 + p.windowMs) :
    ∀ N, seqAdmitted p req t N = min N p.maxRequests := by
  intro N
  induction N with
  | zero =>
    simp [seqAdmitted]
  | succ N ih =>
    unfold seqAdmitted at ih ⊢
    rw [List.range_succ, List.countP_append, ih]
    rcases Nat.lt_or_ge N p.maxRequests with h | h
    · simp [List.countP_cons, seqPassed p req ident t hres hQ ht N, h]
      omega
    · simp [List.countP_cons, seqPassed p req ident t hres hQ ht N,
        Nat.not_lt.mpr h]
      omega

/-- C1: for the policy with a 60000 ms window and quota 60 under the IP
strategy, a fixed identifier starting with no stored window, and all requests
arriving inside the first window: request `i` (0-based, `i < 60`) is admitted
with `X-RateLimit-Remaining` equal to `59 - i` (the values 59, 58, …, 0,
strictly decreasing) and `X-RateLimit-Reset` equal to `windowStart + 60000`;
request 60 (the 61st) is rejected with HTTP 429, `remaining = 0` and
`0 < retryAfter ≤ 60` seconds. -/
theorem fixed_window_sixty_contract (t : Nat → Nat) (i : Nat) (hi : i < 60)
    (ht : ∀ j, t 0 ≤ t j ∧ t j < t 0 + 60000) :
    passedOn (seqOutcome policy60 reqFixed t i) = true
    ∧ headerRemaining (seqOutcome policy60 reqFixed t i) = some (59 - (i : Int))
    ∧ headerReset (seqOutcome policy60 reqFixed t i) = some (t 0 + 60000)
    ∧ rejectStatus (seqOutcome policy60 reqFixed t 60) = some 429
    ∧ bodyRemaining (seqOutcome policy60 reqFixed t 60) = some 0
    ∧ (∃ ra, bodyRetryAfter (seqOutcome policy60 reqFixed t 60) = some ra
        ∧ 0 < ra ∧ ra ≤ 60) := by
  have hres : resolvedIdentifier policy60.type reqFixed = some "203.0.113.7" := by
    decide
  have hQ : 1 ≤ policy60.maxRequests := by decide
  have ht' : ∀ j, t 0 ≤ t j ∧ t j < t 0 + policy60.windowMs := ht
  have hfirstpart : passedOn (seqOutcome policy60 reqFixed t i) = true
      ∧ headerRemaining (seqOutcome policy60 reqFixed t i) = some (59 - (i : Int))
      ∧ headerReset (seqOutcome policy60 reqFixed t i) = some (t 0 + 60000) := by
    rcases Nat.eq_zero_or_pos i with h0 | h0
    · subst h0
      rw [seqOutcome_first policy60 reqFixed "203.0.113.7" t hres]
      refine ⟨rfl, ?_, rfl⟩
      simp [headerRemaining, policy60]
    · rw [seqOutcome_under policy60 reqFixed "203.0.113.7" t hres hQ ht' i h0
        (by simpa [policy60] using hi)]
      refine ⟨rfl, ?_, rfl⟩
      simp only [headerRemaining, policy60, Option.some.injEq]
      push_cast
      omega
  refine ⟨hfirstpart.1, hfirstpart.2.1, hfirstpart.2.2, ?_, ?_, ?_⟩
  · rw [seqOutcome_over policy60 reqFixed "203.0.113.7" t hres hQ ht' 60 (by decide)]
    rfl
  · rw [seqOutcome_over policy60 reqFixed "203.0.113.7" t hres hQ ht' 60 (by decide)]
    rfl
  · rw [seqOutcome_over policy60 reqFixed "203.0.113.7" t hres hQ ht' 60 (by decide)]
    refine ⟨_, rfl, ?_, ?_⟩
    · have h2 := (ht 60).2
      by_contra hcon
      push_neg at hcon
      have hle := (jsCeilDiv_le_iff
        (((t 0 + policy60.windowMs : Nat) : Int) - ((t 60 : Nat) : Int)) 0).mp hcon
      simp [policy60] at hle
      omega
    · have h1 := (ht 60).1
      refine (jsCeilDiv_le_iff _ 60).mpr ?_
      simp [policy60]
      omega

/-- Witness for C1: with every request arriving at instant 0, request 59 is
admitted with remaining 0, and request 60 is rejected with a positive
retry-after of at most 60 seconds. -/
theorem fixed_window_sixty_contract_witness :
    (59 < 60)
    ∧ (∀ j : Nat, (fun _ : Nat => 0) 0 ≤ (fun _ : Nat => 0) j
        ∧ (fun _ : Nat => 0) j < (fun _ : Nat => 0) 0 + 60000)
    ∧ (passedOn (seqOutcome policy60 reqFixed (fun _ => 0) 59) = true
       ∧ headerRemaining (seqOutcome policy60 reqFixed (fun _ => 0) 59)
           = some (59 - ((59 : Nat) : Int))
       ∧ headerReset (seqOutcome policy60 reqFixed (fun _ => 0) 59)
           = some ((fun _ : Nat => 0) 0 + 60000)
       ∧ rejectStatus (seqOutcome policy60 reqFixed (fun _ => 0) 60) = some 429
       ∧ bodyRemaining (seqOutcome policy60 reqFixed (fun _ => 0) 60) = some 0
       ∧ (∃ ra, bodyRetryAfter (seqOutcome policy60 reqFixed (fun _ => 0) 60) = some ra
           ∧ 0 < ra ∧ ra ≤ 60)) :=
  ⟨by norm_num,
   fun j => ⟨Nat.le_refl 0, by norm_num⟩,
   fixed_window_sixty_contract (fun _ => 0) 59 (by norm_num)
     (fun j => ⟨Nat.le_refl 0, by norm_num⟩)⟩

/-- C2: a request hitting a live window whose count already reached the quota
is rejected with HTTP 429 and exactly the body of lines 99 to 108 —
`success = false`, the policy's message, error `RATE_LIMIT_EXCEEDED`,
`retryAfter` the ceiling of `(resetAt - now) / 1000` seconds
(the second conjunct characterizes `jsCeilDiv` as that ceiling),
`limit = quota`, `remaining = 0`, `resetTime = windowStart + windowMs` and
the reported type — while the stored window is left completely unchanged. -/
theorem reject_contract (p : Policy) (req : Request) (now : Nat) (store : Store)
    (ident : String) (r : RateLimitLog)
    (hres : resolvedIdentifier p.type req = some ident)
    (hfind : mongoFindOne store ident = some r)
    (hlive : isWindowExpired r.windowStart p.windowMs now = false)
    (hover : p.maxRequests ≤ r.count) :
    rateLimiter p req now store =
      (Outcome.reject 429
        { success := false, message := p.message,
          error := "RATE_LIMIT_EXCEEDED",
          retryAfter := jsCeilDiv (((r.windowStart + p.windowMs : Nat) : Int) - (now : Int)) 1000,
          limit := p.maxRequests, remaining := 0,
          resetTime := r.windowStart + p.windowMs,
          type := if req.user.isSome then "token" else "ip" },
       store)
    ∧ (∀ k : Int,
        jsCeilDiv (((r.windowStart + p.windowMs : Nat) : Int) - (now : Int)) 1000 ≤ k
          ↔ ((r.windowStart + p.windowMs : Nat) : Int) - (now : Int) ≤ 1000 * k) :=
  ⟨rateLimiter_reject p req now store ident r hres hfind hlive hover,
   fun k => jsCeilDiv_le_iff _ k⟩

/-- Witness for C2: a window at quota 2 started at 0, probed at 5 ms, is
rejected with the store untouched, and the retry-after evaluates to 60. -/
theorem reject_contract_witness :
    resolvedIdentifier
        ({ windowMs := 60000, maxRequests := 2, message := "m",
           type := "ip" } : Policy).type { ip := some "9.9.9.9" } = some "9.9.9.9"
    ∧ mongoFindOne [⟨0, "9.9.9.9", 2, 3, 0⟩] "9.9.9.9" = some ⟨0, "9.9.9.9", 2, 3, 0⟩
    ∧ isWindowExpired 0 60000 5 = false
    ∧ (2 : Nat) ≤ 2
    ∧ rateLimiter { windowMs := 60000, maxRequests := 2, message := "m", type := "ip" }
        { ip := some "9.9.9.9" } 5 [⟨0, "9.9.9.9", 2, 3, 0⟩]
      = (Outcome.reject 429
          { success := false, message := "m", error := "RATE_LIMIT_EXCEEDED",
            retryAfter := jsCeilDiv (((0 + 60000 : Nat) : Int) - ((5 : Nat) : Int)) 1000,
            limit := 2, remaining := 0, resetTime := 0 + 60000, type := "ip" },
         [⟨0, "9.9.9.9", 2, 3, 0⟩])
    ∧ jsCeilDiv (((0 + 60000 : Nat) : Int) - ((5 : Nat) : Int)) 1000 = 60 :=
  ⟨by decide, by decide, by decide, by decide,
   (reject_contract { windowMs := 60000, maxRequests := 2, message := "m", type := "ip" }
      { ip := some "9.9.9.9" } 5 [⟨0, "9.9.9.9", 2, 3, 0⟩] "9.9.9.9"
      ⟨0, "9.9.9.9", 2, 3, 0⟩ (by decide) (by decide) (by decide) (by decide)).1,
   by decide⟩

/-- C3 counterexample: the check-and-increment is not atomic.  Two concurrent
requests from one identifier against quota 1 — N = 2 > Q = 1 — whose
`findOne` reads both resolve before either write commits (the schedule
read 0, read 1, commit 0, commit 1) are both admitted: 2 admissions and 0
rejections instead of the claimed exactly 1 and 1.  Both requests observed
an absent window and both inserted a fresh one. -/
theorem interleaved_over_admission :
    admittedCount (runSched { windowMs := 60000, maxRequests := 1, message := "m", type := "ip" }
      "x" 0 [SchedStep.doRead 0, SchedStep.doRead 1, SchedStep.doCommit 0, SchedStep.doCommit 1]
      (initExec 2)) = 2
    ∧ admittedCount (runSched { windowMs := 60000, maxRequests := 1, message := "m", type := "ip" }
      "x" 0 [SchedStep.doRead 0, SchedStep.doRead 1, SchedStep.doCommit 0, SchedStep.doCommit 1]
      (initExec 2)) ≠ 1
    ∧ rejectedCount (runSched { windowMs := 60000, maxRequests := 1, message := "m", type := "ip" }
      "x" 0 [SchedStep.doRead 0, SchedStep.doRead 1, SchedStep.doCommit 0, SchedStep.doCommit 1]
      (initExec 2)) = 0 := by
  decide

/-- C3 amended: only when the N requests from one identifier execute without
overlapping (each one's read and write complete before the next read) do
N > Q requests against quota Q within one window yield exactly Q admissions
and N - Q rejections; the middleware's separate `findOne`-then-`save` steps
do not provide this under interleaving. -/
theorem sequential_exact_quota (p : Policy) (req : Request) (ident : String)
    (t : Nat → Nat) (N : Nat)
    (hres : resolvedIdentifier p.type req = some ident)
    (hQ : 1 ≤ p.maxRequests)
    (ht : ∀ i, t 0 ≤ t i ∧ t i < t 0 + p.windowMs)
    (hN : p.maxRequests < N) :
    seqAdmitted p req t N = p.maxRequests
    ∧ seqRejected p req t N = N - p.maxRequests := by
  have hmin := seqAdmitted_eq_min p req ident t hres hQ ht N
  have htot := length_eq_countP_add (List.range N)
    (fun i => passedOn (seqOutcome p req t i))
  rw [List.length_range] at htot
  have ha : seqAdmitted p req t N = p.maxRequests := by
    rw [hmin]
    omega
  refine ⟨ha, ?_⟩
  have hsum : seqAdmitted p req t N + seqRejected p req t N = N := by
    rw [seqAdmitted, seqRejected] at *
    omega
  omega

/-- Witness for the amended C3 theorem: 5 sequential requests against quota 2
give exactly 2 admissions and 3 rejections. -/
theorem sequential_exact_quota_witness :
    resolvedIdentifier
        ({ windowMs := 60000, maxRequests := 2, message := "m",
           type := "ip" } : Policy).type { ip := some "9.9.9.9" } = some "9.9.9.9"
    ∧ (1 : Nat) ≤ 2
    ∧ (∀ i : Nat, (fun _ : Nat => 0) 0 ≤ (fun _ : Nat => 0) i
        ∧ (fun _ : Nat => 0) i < (fun _ : Nat => 0) 0 + 60000)
    ∧ (2 : Nat) < 5
    ∧ seqAdmitted { windowMs := 60000, maxRequests := 2, message := "m", type := "ip" }
        { ip := some "9.9.9.9" } (fun _ => 0) 5 = 2
    ∧ seqRejected { windowMs := 60000, maxRequests := 2, message := "m", type := "ip" }
        { ip := some "9.9.9.9" } (fun _ => 0) 5 = 5 - 2 :=
  ⟨by decide, by norm_num, fun i => ⟨Nat.le_refl 0, by norm_num⟩, by norm_num,
   (sequential_exact_quota { windowMs := 60000, maxRequests := 2, message := "m", type := "ip" }
      { ip := some "9.9.9.9" } "9.9.9.9" (fun _ => 0) 5 (by decide) (by norm_num)
      (fun i => ⟨Nat.le_refl 0, by norm_num⟩) (by norm_num)).1,
   (sequential_exact_quota { windowMs := 60000, maxRequests := 2, message := "m", type := "ip" }
      { ip := some "9.9.9.9" } "9.9.9.9" (fun _ => 0) 5 (by decide) (by norm_num)
      (fun i => ⟨Nat.le_refl 0, by norm_num⟩) (by norm_num)).2⟩

/-- C5: for a stored window found for the identifier (document ids distinct,
time not running backwards): `windowStart` never decreases across a decision,
it strictly advances exactly when the window's age at decision time is at
least the policy's window length, and on that rollover the count is reset to
1, the new `windowStart` is `now`, and the request is admitted with
`remaining = quota - 1`. -/
theorem windowStart_monotone_rollover (p : Policy) (req : Request) (now : Nat)
    (store : Store) (ident : String) (r : RateLimitLog)
    (hnodup : (store.map RateLimitLog.rid).Nodup)
    (hres : resolvedIdentifier p.type req = some ident)
    (hfind : mongoFindOne store ident = some r)
    (hmono : r.windowStart ≤ now)
    (hW : 1 ≤ p.windowMs) :
    ∃ r', mongoFindOne (rateLimiter p req now store).2 ident = some r'
      ∧ r.windowStart ≤ r'.windowStart
      ∧ (r.windowStart < r'.windowStart
          ↔ isWindowExpired r.windowStart p.windowMs now = true)
      ∧ (isWindowExpired r.windowStart p.windowMs now = true →
          r'.count = 1 ∧ r'.windowStart = now
          ∧ headerRemaining (rateLimiter p req now store).1
              = some ((p.maxRequests : Int) - 1)
          ∧ passedOn (rateLimiter p req now store).1 = true) := by
  have hrident : r.identifier = ident := by
    have h := List.find?_some hfind
    simpa using h
  rcases hexp : isWindowExpired r.windowStart p.windowMs now with _ | _
  · rcases Nat.lt_or_ge r.count p.maxRequests with hc | hc
    · rw [rateLimiter_increment p req now store ident r hres hfind hexp hc]
      refine ⟨{ r with count := r.count + 1, lastRequest := now }, ?_, ?_, ?_, ?_⟩
      · exact mongoFindOne_saveDoc store ident r _ hnodup hfind rfl hrident
      · simp
      · simp
      · intro hcontra
        simp at hcontra
    · rw [rateLimiter_reject p req now store ident r hres hfind hexp hc]
      refine ⟨r, hfind, le_refl _, by simp, ?_⟩
      intro hcontra
      simp at hcontra
  · rw [rateLimiter_rollover p req now store ident r hres hfind hexp]
    have hlt : r.windowStart < now := by
      simp only [isWindowExpired, decide_eq_true_eq] at hexp
      omega
    refine ⟨{ r with count := 1, windowStart := now, lastRequest := now }, ?_, ?_, ?_, ?_⟩
    · exact mongoFindOne_saveDoc store ident r _ hnodup hfind rfl hrident
    · exact hmono
    · simpa using hlt
    · intro _
      exact ⟨rfl, rfl, rfl, rfl⟩

/-- Witness for C5: a window started at 5 with window length 10, probed at
20, rolls over: count 1, new start 20, admitted with remaining quota - 1. -/
theorem windowStart_monotone_rollover_witness :
    ([(⟨0, "a", 1, 5, 5⟩ : RateLimitLog)].map RateLimitLog.rid).Nodup
    ∧ resolvedIdentifier
        ({ windowMs := 10, maxRequests := 2, message := "m",
           type := "ip" } : Policy).type { ip := some "a" } = some "a"
    ∧ mongoFindOne [⟨0, "a", 1, 5, 5⟩] "a" = some ⟨0, "a", 1, 5, 5⟩
    ∧ (5 : Nat) ≤ 20
    ∧ (1 : Nat) ≤ 10
    ∧ (∃ r', mongoFindOne (rateLimiter { windowMs := 10, maxRequests := 2, message := "m", type := "ip" }
          { ip := some "a" } 20 [⟨0, "a", 1, 5, 5⟩]).2 "a" = some r'
        ∧ (5 : Nat) ≤ r'.windowStart
        ∧ ((5 : Nat) < r'.windowStart ↔ isWindowExpired 5 10 20 = true)
        ∧ (isWindowExpired 5 10 20 = true →
            r'.count = 1 ∧ r'.windowStart = 20
            ∧ headerRemaining (rateLimiter { windowMs := 10, maxRequests := 2, message := "m", type := "ip" }
                { ip := some "a" } 20 [⟨0, "a", 1, 5, 5⟩]).1 = some (((2 : Nat) : Int) - 1)
            ∧ passedOn (rateLimiter { windowMs := 10, maxRequests := 2, message := "m", type := "ip" }
                { ip := some "a" } 20 [⟨0, "a", 1, 5, 5⟩]).1 = true)) :=
  ⟨by decide, by decide, by decide, by decide, by decide,
   windowStart_monotone_rollover { windowMs := 10, maxRequests := 2, message := "m", type := "ip" }
     { ip := some "a" } 20 [⟨0, "a", 1, 5, 5⟩] "a" ⟨0, "a", 1, 5, 5⟩
     (by decide) (by decide) (by decide) (by decide) (by decide)⟩
